import Mathlib

/-!
Verification development for the gecobot repository: a shallow embedding of
the session router (bot.py GeconsultasBot), the per-user conversation session
(bot.py GeconsultaInstanceBot), the paginated selector (inlineselector.py
InlineSelector) and the date-wheel selector (inlinedateselector.py
InlineDateSelector), together with theorems settling the specification
claims about them.

Modelling conventions:
- Python ints are Int; Python dicts keyed by ints are insertion-ordered
  association lists (List (Nat × _)) with helper alookup / setEntry /
  removeEntry.
- Telegram API objects (keyboards, markup edits, callback answers) are
  external; only their state effects on the embedded objects are modelled.
  User-visible replies (reply_text calls) are collected in an Effects record,
  as are records pushed to the sheet-manager sink (request_input appends).
- datetime.now(DEFAULT_TIMEZONE) and the spreadsheet data functors are
  external inputs; they are threaded through an Env record (fields now,
  course_data, assist_data). hashlib.sha256 hexdigest (bot.py hash_string)
  is an external one-way digest, modelled as the abstract Env.hash_string.
-/

namespace Gecobot

/-! ### bot.py: enums and the Consulta data class -/

/-- bot.py InputState: state enum for data entry steps. -/
inductive InputState
  | INPUT_STATE_IDLE
  | INPUT_STUDENT_NAME
  | INPUT_COURSE_NAME
  | INPUT_ASSIST_NAME
  | INPUT_AUX_NAME
  | INPUT_RECEIVED_DATE
  | INPUT_START_DATE
  | INPUT_END_DATE
  | INPUT_STATE_END
deriving DecidableEq, Repr

/-- The  .value of each InputState member, as assigned in bot.py. -/
def InputState.value : InputState → Nat
  | .INPUT_STATE_IDLE => 0
  | .INPUT_STUDENT_NAME => 1
  | .INPUT_COURSE_NAME => 2
  | .INPUT_ASSIST_NAME => 3
  | .INPUT_AUX_NAME => 4
  | .INPUT_RECEIVED_DATE => 5
  | .INPUT_START_DATE => 6
  | .INPUT_END_DATE => 7
  | .INPUT_STATE_END => 8

/-- bot.py AuthState: state enum for authentication steps. -/
inductive AuthState
  | AUTH_STATE_IDLE
  | AUTH_IS_AUTHENTICATING
  | AUTH_IS_AUTHENTICATED
deriving DecidableEq, Repr

/-- The  .value of each AuthState member, as assigned in bot.py. -/
def AuthState.value : AuthState → Nat
  | .AUTH_STATE_IDLE => 0
  | .AUTH_IS_AUTHENTICATING => 1
  | .AUTH_IS_AUTHENTICATED => 2

/-- bot.py Consulta: the attr data class holding one form record. -/
structure Consulta where
  received_date : String
  start_date : String
  end_date : String
  assistant_name : String
  auxiliary_name : String
  student_name : String
  course_name : String
deriving DecidableEq, Repr

/-- A freshly constructed Consulta(): the attr.ib defaults of bot.py
(empty strings, course_name defaults to "N/A"). -/
def Consulta.init : Consulta :=
  { received_date := "", start_date := "", end_date := "",
    assistant_name := "", auxiliary_name := "", student_name := "",
    course_name := "N/A" }

/-! ### inlineselector.py: the paginated selector -/

/-- inlineselector.py SELECTOR_ROWS_DEFAULT. -/
def SELECTOR_ROWS_DEFAULT : Int := 4

/-- inlineselector.py InlineSelectorAction.has_action: membership of the
string among the action strings of the enum members
(ACTION_RIGHT, ACTION_LEFT, ACTION_NO_OP). -/
def InlineSelectorAction.has_action (action_string : String) : Bool :=
  action_string == "$right" || action_string == "$left" || action_string == "$noop"

/-- inlineselector.py InlineSelectorState. -/
inductive InlineSelectorState
  | IDLE
  | SELECTION_ACTIVE
  | SELECTION_COMPLETE
deriving DecidableEq, Repr

/-- inlineselector.py InlineSelector instance state. The injected
data_function is external (a spreadsheet column fetch); its result is
supplied at each fetch_data call site from the Env. -/
structure InlineSelector where
  selector_state : InlineSelectorState
  page_length : Int
  page_index : Int
  data : Option (List String)
deriving DecidableEq, Repr

/-- InlineSelector.__init__ with the default n_rows. -/
def InlineSelector.init : InlineSelector :=
  { selector_state := .IDLE, page_length := SELECTOR_ROWS_DEFAULT,
    page_index := 0, data := none }

/-- InlineSelector.is_action: string.startswith of the reserved marker,
taken on the character sequence. -/
def InlineSelector.is_action (string : String) : Bool :=
  "$".data.isPrefixOf string.data

/-- InlineSelector.is_action_valid: no-op tokens are invalid; left is invalid
at page_index 0; right is invalid when the last page is already shown. -/
def InlineSelector.is_action_valid (sel : InlineSelector) (action : String) : Bool :=
  if action == "$noop" then false
  else if action == "$left" && sel.page_index == 0 then false
  else if action == "$right" &&
      decide (((sel.data.getD []).length : Int) ≤ (sel.page_index + 1) * sel.page_length)
    then false
  else true

/-- InlineSelector.get_inline_keyboard, state effect only: returns early when
data is None, otherwise builds the keyboard (external markup, not modelled)
and sets the state to SELECTION_ACTIVE. -/
def InlineSelector.get_inline_keyboard (sel : InlineSelector) : InlineSelector :=
  match sel.data with
  | none => sel
  | some _ => { sel with selector_state := .SELECTION_ACTIVE }

/-- InlineSelector.fetch_data: fetch the latest data from the injected
functor (the source list supplied by the Env) and filter out empty strings. -/
def InlineSelector.fetch_data (sel : InlineSelector) (source : List String) : InlineSelector :=
  { sel with data := some (source.filter (fun val => val ≠ "")) }

/-- InlineSelector.handle_selector_action: invalid actions do nothing; valid
navigation moves page_index by plus or minus one and re-renders the keyboard. -/
def InlineSelector.handle_selector_action (sel : InlineSelector) (action : String) : InlineSelector :=
  if sel.is_action_valid action then
    let step : Int := if action == "$right" then 1 else -1
    InlineSelector.get_inline_keyboard { sel with page_index := sel.page_index + step }
  else sel

/-- InlineSelector.handle_callback_query: returns the updated selector and
the extracted terminal selection, if any. -/
def InlineSelector.handle_callback_query (sel : InlineSelector) (data : Option String) :
    InlineSelector × Option String :=
  match data with
  | none => (sel, none)
  | some data_string =>
    if sel.selector_state = .SELECTION_ACTIVE then
      if InlineSelector.is_action data_string && InlineSelectorAction.has_action data_string then
        (sel.handle_selector_action data_string, none)
      else
        ({ sel with selector_state := .SELECTION_COMPLETE }, some data_string)
    else (sel, none)

/-- InlineSelector.reset: state to IDLE, page_index to 0, data cleared. -/
def InlineSelector.reset (sel : InlineSelector) : InlineSelector :=
  { sel with selector_state := .IDLE, page_index := 0, data := none }

/-! ### inlinedateselector.py: the date-wheel selector -/

/-- inlinedateselector.py auxiliary constants. -/
def CONST_MAX_MONTHS : Int := 12

def CONST_MAX_HOURS : Int := 24

def CONST_MAX_MINUTES : Int := 60

/-- inlinedateselector.py pad_zeros: str(number).rjust(width, "0"). -/
def pad_zeros (number : Int) (width : Nat) : String :=
  let s := toString number
  String.mk (List.replicate (width - s.length) '0') ++ s

/-- The current wall-clock reading of datetime.now(DEFAULT_TIMEZONE): an
external input, threaded through the Env. -/
structure Now where
  year : Int
  month : Int
  day : Int
  hour : Int
  minute : Int
deriving DecidableEq, Repr

/-- calendar.isleap (used through calendar.monthrange). -/
def isleap (year : Int) : Bool :=
  year % 4 == 0 && (year % 100 != 0 || year % 400 == 0)

/-- The second component of calendar.monthrange(year, month): the number of
days of the month. calendar raises IllegalMonthError outside 1..12; that
range never occurs in the program, and is mapped to 0 here. -/
def monthrange_days (year month : Int) : Int :=
  if month = 2 then (if isleap year then 29 else 28)
  else if month = 4 ∨ month = 6 ∨ month = 9 ∨ month = 11 then 30
  else if 1 ≤ month ∧ month ≤ 12 then 31
  else 0

/-- list(calendar.month_abbr): the month_list field of the selector, a
constant (index 0 is the empty string). -/
def month_abbr_list : List String :=
  ["", "Jan", "Feb", "Mar", "Apr", "May", "Jun",
   "Jul", "Aug", "Sep", "Oct", "Nov", "Dec"]

/-- inlinedateselector.py InlineDateSelectorAction.has_action: membership of
the string among the action strings of the enum members. -/
def InlineDateSelectorAction.has_action (action_string : String) : Bool :=
  action_string == "$month_up" || action_string == "$month_down" ||
  action_string == "$day_up" || action_string == "$day_down" ||
  action_string == "$hour_up" || action_string == "$hour_down" ||
  action_string == "$minute_up" || action_string == "$minute_down" ||
  action_string == "$date_confirm" || action_string == "$noop"

/-- inlinedateselector.py InlineDateSelectorState. -/
inductive InlineDateSelectorState
  | IDLE
  | SELECTION_ACTIVE
  | SELECTION_COMPLETE
deriving DecidableEq, Repr

/-- inlinedateselector.py InlineDateSelector instance state (month_list is
the constant month_abbr_list and is not repeated per instance). -/
structure InlineDateSelector where
  selector_state : InlineDateSelectorState
  confirmed_date : Option String
  year : Int
  month_number : Int
  month_abbr : String
  days_in_month : Int
  day : Int
  time_hour : Int
  time_minute : Int
deriving DecidableEq, Repr

/-- InlineDateSelector.get_days_in_month. -/
def InlineDateSelector.get_days_in_month (d : InlineDateSelector) : Int :=
  monthrange_days d.year d.month_number

/-- InlineDateSelector.__init__, seeded from datetime.now(DEFAULT_TIMEZONE). -/
def InlineDateSelector.init (today : Now) : InlineDateSelector :=
  { selector_state := .IDLE, confirmed_date := none,
    year := today.year, month_number := today.month,
    month_abbr := month_abbr_list.getD today.month.toNat "",
    days_in_month := monthrange_days today.year today.month,
    day := today.day, time_hour := today.hour, time_minute := today.minute }

/-- InlineDateSelector.is_action: string.startswith of the reserved marker,
taken on the character sequence. -/
def InlineDateSelector.is_action (string : String) : Bool :=
  "$".data.isPrefixOf string.data

/-- InlineDateSelector.is_action_valid: only the no-op token is invalid. -/
def InlineDateSelector.is_action_valid (action : String) : Bool :=
  !(action == "$noop")

/-- InlineDateSelector.is_action_up. -/
def InlineDateSelector.is_action_up (action : String) : Bool :=
  action == "$month_up" || action == "$day_up" ||
  action == "$hour_up" || action == "$minute_up"

/-- InlineDateSelector.get_inline_keyboard, state effect only: builds the
wheel keyboard (external markup, not modelled) and sets SELECTION_ACTIVE. -/
def InlineDateSelector.get_inline_keyboard (d : InlineDateSelector) : InlineDateSelector :=
  { d with selector_state := .SELECTION_ACTIVE }

/-- InlineDateSelector.update_month: wrap at the 12/1 boundary, refresh the
abbreviation and days_in_month, clamp day down to the new maximum. -/
def InlineDateSelector.update_month (d : InlineDateSelector) (is_up : Bool) : InlineDateSelector :=
  let delta : Int := if is_up then 1 else -1
  let m : Int :=
    if d.month_number + delta > CONST_MAX_MONTHS then 1
    else if d.month_number + delta < 1 then CONST_MAX_MONTHS
    else d.month_number + delta
  let dim : Int := monthrange_days d.year m
  { d with month_number := m,
           month_abbr := month_abbr_list.getD m.toNat "",
           days_in_month := dim,
           day := if d.day > dim then dim else d.day }

/-- InlineDateSelector.update_day: wrap within 1..days_in_month. -/
def InlineDateSelector.update_day (d : InlineDateSelector) (is_up : Bool) : InlineDateSelector :=
  let delta : Int := if is_up then 1 else -1
  if d.day + delta > d.days_in_month then { d with day := 1 }
  else if d.day + delta < 1 then { d with day := d.days_in_month }
  else { d with day := d.day + delta }

/-- InlineDateSelector.update_hour: modulo CONST_MAX_HOURS (Python %). -/
def InlineDateSelector.update_hour (d : InlineDateSelector) (is_up : Bool) : InlineDateSelector :=
  let delta : Int := if is_up then 1 else -1
  { d with time_hour := (d.time_hour + delta) % CONST_MAX_HOURS }

/-- InlineDateSelector.update_minute: modulo CONST_MAX_MINUTES (Python %). -/
def InlineDateSelector.update_minute (d : InlineDateSelector) (is_up : Bool) : InlineDateSelector :=
  let delta : Int := if is_up then 1 else -1
  { d with time_minute := (d.time_minute + delta) % CONST_MAX_MINUTES }

/-- InlineDateSelector.handle_confirm collapses the keyboard to the chosen
row: an external markup edit with no effect on the embedded state. -/
def InlineDateSelector.handle_confirm (d : InlineDateSelector) : InlineDateSelector :=
  d

/-- DATE_STR_FORMAT applied by str.format to the selector counters: the
Y/M/D h:m:00 layout, each Python int rendered by str(). -/
def DATE_STR_FORMAT_apply (Y M D h m : Int) : String :=
  toString Y ++ "/" ++ toString M ++ "/" ++ toString D ++ " " ++
  toString h ++ ":" ++ toString m ++ ":00"

/-- InlineDateSelector.handle_selector_action: the second component embeds
the Python return value (none for invalid input returning None, some true
for a confirm, some false after a wheel adjustment). -/
def InlineDateSelector.handle_selector_action (d : InlineDateSelector) (action : String) :
    InlineDateSelector × Option Bool :=
  if InlineDateSelector.is_action_valid action then
    if action == "$date_confirm" then (d.handle_confirm, some true)
    else
      let is_up := InlineDateSelector.is_action_up action
      let d1 :=
        if action == "$month_up" || action == "$month_down" then d.update_month is_up
        else if action == "$day_up" || action == "$day_down" then d.update_day is_up
        else if action == "$hour_up" || action == "$hour_down" then d.update_hour is_up
        else if action == "$minute_up" || action == "$minute_down" then d.update_minute is_up
        else d
      (d1.get_inline_keyboard, some false)
  else (d, none)

/-- InlineDateSelector.handle_callback_query: returns the updated selector
and the confirmed date string, if the event confirmed the date. -/
def InlineDateSelector.handle_callback_query (d : InlineDateSelector) (data : Option String) :
    InlineDateSelector × Option String :=
  match data with
  | none => (d, none)
  | some data_string =>
    if d.selector_state = .SELECTION_ACTIVE then
      if InlineDateSelector.is_action data_string &&
          InlineDateSelectorAction.has_action data_string then
        let r := d.handle_selector_action data_string
        match r.2 with
        | some true =>
          let s := DATE_STR_FORMAT_apply r.1.year r.1.month_number r.1.day
                     r.1.time_hour r.1.time_minute
          ({ r.1 with confirmed_date := some s,
                      selector_state := .SELECTION_COMPLETE }, some s)
        | _ => (r.1, none)
      else (d, none)
    else (d, none)

/-- InlineDateSelector.reset: re-arm to IDLE; unless persist is set, also
reinitialize every counter from datetime.now(DEFAULT_TIMEZONE). -/
def InlineDateSelector.reset (d : InlineDateSelector) (persist : Bool) (today : Now) :
    InlineDateSelector :=
  if persist then { d with selector_state := .IDLE, confirmed_date := none }
  else
    { selector_state := .IDLE, confirmed_date := none,
      year := today.year, month_number := today.month,
      month_abbr := month_abbr_list.getD today.month.toNat "",
      days_in_month := monthrange_days today.year today.month,
      day := today.day, time_hour := today.hour, time_minute := today.minute }

/-! ### bot.py: the per-user session (GeconsultaInstanceBot) -/

/-- The outward effects of one handled event: the texts passed to
reply_text calls (in order) and the Consulta records pushed to
SheetManager.request_input (sheetmanager.py appends each non-None record
to its input_stack, in order). -/
structure Effects where
  replies : List String
  enqueued : List Consulta
deriving DecidableEq, Repr

/-- No outward effect. -/
def noEff : Effects := { replies := [], enqueued := [] }

/-- A reply-only effect. -/
def Effects.say (texts : List String) : Effects := { replies := texts, enqueued := [] }

/-- Sequencing of effects. -/
def Effects.append (a b : Effects) : Effects :=
  { replies := a.replies ++ b.replies, enqueued := a.enqueued ++ b.enqueued }

/-- External inputs of one event delivery: the abstract one-way digest of
bot.py hash_string (hashlib.sha256 hexdigest over UTF-8), the lists
returned by the two spreadsheet data functors
(sheet_manager.get_data_from_field_functor for COURSE_NAME / ASSIST_NAME),
and the current datetime.now(DEFAULT_TIMEZONE) reading. -/
structure Env where
  hash_string : String → String
  course_data : List String
  assist_data : List String
  now : Now

/-- Which of the three selector objects owned by the session a Python
reference points at (bot.py stores object references in selector_map;
the only selector objects are the session's three fields). -/
inductive SelectorRef
  | courseSel
  | assistSel
  | dateSel
deriving DecidableEq, Repr

/-- bot.py GeconsultaInstanceBot instance state. The sheet_manager
reference is external (its request_input appends are recorded in Effects);
the state-function maps built by run() are embedded as the dispatch
matches of handle_message / handle_inline_query below. -/
structure GeconsultaInstanceBot where
  user_id : Nat
  consulta : Consulta
  input_state : InputState
  auth_state : AuthState
  auth_hash : String
  course_name_selector : InlineSelector
  assist_name_selector : InlineSelector
  date_selector : InlineDateSelector
  selector_map : List (Nat × Option SelectorRef)
deriving DecidableEq, Repr

/-- GeconsultaInstanceBot.__init__ (the RuntimeError guard on an absent
auth_hash is startup configuration, outside the session machine). -/
def GeconsultaInstanceBot.init (user_id : Nat) (auth_hash : String) (today : Now) :
    GeconsultaInstanceBot :=
  { user_id := user_id, consulta := Consulta.init,
    input_state := .INPUT_STATE_IDLE, auth_state := .AUTH_STATE_IDLE,
    auth_hash := auth_hash,
    course_name_selector := InlineSelector.init,
    assist_name_selector := InlineSelector.init,
    date_selector := InlineDateSelector.init today,
    selector_map := [] }

/-- Association-list lookup for an insertion-ordered Python dict keyed by
message ids / user ids. -/
def alookup {α : Type} : List (Nat × α) → Nat → Option α
  | [], _ => none
  | p :: t, k => if p.1 = k then some p.2 else alookup t k

/-- In-place value update of a Python dict entry (object mutation through
the stored reference leaves the key set unchanged). -/
def setEntry {α : Type} (l : List (Nat × α)) (k : Nat) (v : α) : List (Nat × α) :=
  l.map (fun p => if p.1 = k then (k, v) else p)

/-- Python dict.pop(k). -/
def removeEntry {α : Type} (l : List (Nat × α)) (k : Nat) : List (Nat × α) :=
  l.filter (fun p => p.1 != k)

/-- GeconsultaInstanceBot.current_selector. -/
def GeconsultaInstanceBot.current_selector (s : GeconsultaInstanceBot) : Option SelectorRef :=
  if s.auth_state = .AUTH_IS_AUTHENTICATED then
    match s.input_state with
    | .INPUT_COURSE_NAME => some .courseSel
    | .INPUT_ASSIST_NAME => some .assistSel
    | .INPUT_AUX_NAME => some .assistSel
    | .INPUT_RECEIVED_DATE => some .dateSel
    | .INPUT_START_DATE => some .dateSel
    | .INPUT_END_DATE => some .dateSel
    | _ => none
  else none

/-- selector.handle_callback_query(update, context) dispatched through a
stored reference: runs the pointed-at selector object's handler and writes
the mutated object back to the session field it aliases. -/
def GeconsultaInstanceBot.apply_selector (s : GeconsultaInstanceBot) (ref : SelectorRef)
    (data : Option String) : GeconsultaInstanceBot × Option String :=
  match ref with
  | .courseSel =>
    let r := s.course_name_selector.handle_callback_query data
    ({ s with course_name_selector := r.1 }, r.2)
  | .assistSel =>
    let r := s.assist_name_selector.handle_callback_query data
    ({ s with assist_name_selector := r.1 }, r.2)
  | .dateSel =>
    let r := s.date_selector.handle_callback_query data
    ({ s with date_selector := r.1 }, r.2)

/-- GeconsultaInstanceBot.restart_inline_selectors. -/
def GeconsultaInstanceBot.restart_inline_selectors (env : Env) (s : GeconsultaInstanceBot) :
    GeconsultaInstanceBot :=
  { s with course_name_selector := s.course_name_selector.reset,
           assist_name_selector := s.assist_name_selector.reset,
           date_selector := s.date_selector.reset false env.now,
           selector_map := [] }

/-- GeconsultaInstanceBot.restart. -/
def GeconsultaInstanceBot.restart (env : Env) (s : GeconsultaInstanceBot) (noupdate : Bool) :
    GeconsultaInstanceBot × Effects :=
  if s.auth_state = .AUTH_IS_AUTHENTICATED then
    let s1 := GeconsultaInstanceBot.restart_inline_selectors env
      { s with consulta := Consulta.init, input_state := .INPUT_STATE_IDLE }
    (s1, if noupdate then noEff else Effects.say ["¡Datos reseteados!"])
  else (s, noEff)

/-- GeconsultaInstanceBot.show_help. -/
def GeconsultaInstanceBot.show_help (s : GeconsultaInstanceBot) :
    GeconsultaInstanceBot × Effects :=
  (s, Effects.say ["¡Hola! Soy el ayudante virtual de Geconsultas 🙂\nConmigo puedes ingresar los datos de tu Geconsulta de forma automatizada, sin rollos 😎\n➡️ Usa el comando /auth para autenticar tu chat 🔐\n➡️ Usa el comando /registrar para ingresar datos 📝\n➡️ Usa el comando /restart para borrar los datos y comenzar desde cero 🔄"])

/-- GeconsultaInstanceBot.register. -/
def GeconsultaInstanceBot.register (s : GeconsultaInstanceBot) :
    GeconsultaInstanceBot × Effects :=
  if s.auth_state ≠ .AUTH_IS_AUTHENTICATED then
    (s, Effects.say ["Por favor, usa el comando /auth para autenticar tu chat primero ✅"])
  else
    let s1 := if s.input_state.value > InputState.INPUT_STATE_IDLE.value
              then { s with consulta := Consulta.init } else s
    ({ s1 with input_state := .INPUT_STUDENT_NAME },
     Effects.say ["Por favor, sigue los pasos para registrar tu consulta 🙂",
                  "Introduce el nombre del estudiante 📖"])

/-- GeconsultaInstanceBot.auth. -/
def GeconsultaInstanceBot.auth (s : GeconsultaInstanceBot) :
    GeconsultaInstanceBot × Effects :=
  if s.auth_state = .AUTH_IS_AUTHENTICATED then
    (s, Effects.say ["Parece que ya estás autenticado 🙂\nPara registrar tu consulta, usa el comando /register 📝"])
  else
    ({ s with auth_state := .AUTH_IS_AUTHENTICATING },
     Effects.say ["Por favor, introduce la contraseña 🙂"])

/-- GeconsultaInstanceBot.logout: the Bool is the Python return value (True
exactly when the logout was performed from the authenticated state). -/
def GeconsultaInstanceBot.logout (env : Env) (s : GeconsultaInstanceBot) (noupdate : Bool) :
    GeconsultaInstanceBot × Effects × Bool :=
  if s.auth_state = .AUTH_IS_AUTHENTICATED then
    let r := GeconsultaInstanceBot.restart env s true
    ({ r.1 with auth_state := .AUTH_STATE_IDLE },
     Effects.append r.2
       (if noupdate then noEff else Effects.say ["Sesión cerrada con éxito 🙂 ¡Nos vemos!"]),
     true)
  else (s, noEff, false)

/-- GeconsultaInstanceBot.start: restart, logout, then show_help. -/
def GeconsultaInstanceBot.start (env : Env) (s : GeconsultaInstanceBot) :
    GeconsultaInstanceBot × Effects :=
  let r1 := GeconsultaInstanceBot.restart env s true
  let r2 := GeconsultaInstanceBot.logout env r1.1 true
  let r3 := GeconsultaInstanceBot.show_help r2.1
  (r3.1, Effects.append r1.2 (Effects.append r2.2.1 r3.2))

/-- GeconsultaInstanceBot.handle_auth_idle. -/
def GeconsultaInstanceBot.handle_auth_idle (s : GeconsultaInstanceBot) :
    GeconsultaInstanceBot × Effects :=
  (s, noEff)

/-- GeconsultaInstanceBot.handle_authenticating: compare the digest of the
submitted text against the pre-set auth_hash. -/
def GeconsultaInstanceBot.handle_authenticating (env : Env) (s : GeconsultaInstanceBot)
    (text : Option String) : GeconsultaInstanceBot × Effects :=
  match text with
  | none => (s, noEff)
  | some t =>
    if env.hash_string t = s.auth_hash then
      ({ s with auth_state := .AUTH_IS_AUTHENTICATED },
       Effects.say ["¡Autenticación completa! 😎 Ahora puedes usar /registrar para comenzar la entrada de datos 📝"])
    else
      (s, Effects.say ["Contraseña inválida, por favor intenta nuevamente."])

/-- GeconsultaInstanceBot.handle_is_authenticated. -/
def GeconsultaInstanceBot.handle_is_authenticated (s : GeconsultaInstanceBot) :
    GeconsultaInstanceBot × Effects :=
  (s, noEff)

/-- GeconsultaInstanceBot.handle_input_idle. -/
def GeconsultaInstanceBot.handle_input_idle (s : GeconsultaInstanceBot) :
    GeconsultaInstanceBot × Effects :=
  (s, noEff)

/-- GeconsultaInstanceBot.handle_student_name (a two-parameter handler:
update, context). -/
def GeconsultaInstanceBot.handle_student_name (env : Env) (s : GeconsultaInstanceBot)
    (text : Option String) : GeconsultaInstanceBot × Effects :=
  match text with
  | some student_name =>
    let s1 := { s with consulta := { s.consulta with student_name := student_name },
                       input_state := .INPUT_COURSE_NAME }
    let csel := (s1.course_name_selector.fetch_data env.course_data).get_inline_keyboard
    ({ s1 with course_name_selector := csel },
     Effects.say ["¡Genial! Selecciona el nombre de la materia ✒️"])
  | none =>
    (s, Effects.say ["Parece que no enviaste un nombre válido 🤔\nPor favor, inténtalo de nuevo 👇"])

/-- GeconsultaInstanceBot.handle_course_name: has_callback embeds whether
update.callback_query is not None. -/
def GeconsultaInstanceBot.handle_course_name (env : Env) (s : GeconsultaInstanceBot)
    (has_callback : Bool) (cb_data : Option String) (selector : Option SelectorRef) :
    GeconsultaInstanceBot × Effects :=
  match selector, has_callback with
  | some ref, true =>
    let r := s.apply_selector ref cb_data
    match r.2 with
    | some data =>
      let s1 := { r.1 with consulta := { r.1.consulta with course_name := data },
                           input_state := .INPUT_ASSIST_NAME }
      let asel := (s1.assist_name_selector.fetch_data env.assist_data).get_inline_keyboard
      ({ s1 with assist_name_selector := asel },
       Effects.say ["¡Muy bien! Selecciona el nombre del miembro encargado 🤓"])
    | none => (r.1, noEff)
  | _, _ => (s, noEff)

/-- GeconsultaInstanceBot.handle_assist_name: the assist-name selector is
reused, so it is reset and re-fetched before re-arming. -/
def GeconsultaInstanceBot.handle_assist_name (env : Env) (s : GeconsultaInstanceBot)
    (has_callback : Bool) (cb_data : Option String) (selector : Option SelectorRef) :
    GeconsultaInstanceBot × Effects :=
  match selector, has_callback with
  | some ref, true =>
    let r := s.apply_selector ref cb_data
    match r.2 with
    | some data =>
      let s1 := { r.1 with consulta := { r.1.consulta with assistant_name := data },
                           input_state := .INPUT_AUX_NAME }
      let asel := ((s1.assist_name_selector.reset).fetch_data env.assist_data).get_inline_keyboard
      ({ s1 with assist_name_selector := asel },
       Effects.say ["¡Excelente! Selecciona el nombre del miembro auxiliar 🤝"])
    | none => (r.1, noEff)
  | _, _ => (s, noEff)

/-- GeconsultaInstanceBot.handle_aux_name. -/
def GeconsultaInstanceBot.handle_aux_name (s : GeconsultaInstanceBot)
    (has_callback : Bool) (cb_data : Option String) (selector : Option SelectorRef) :
    GeconsultaInstanceBot × Effects :=
  match selector, has_callback with
  | some ref, true =>
    let r := s.apply_selector ref cb_data
    match r.2 with
    | some data =>
      let s1 := { r.1 with consulta := { r.1.consulta with auxiliary_name := data },
                           input_state := .INPUT_RECEIVED_DATE }
      ({ s1 with date_selector := s1.date_selector.get_inline_keyboard },
       Effects.say ["¡Recibido! Ahora selecciona la fecha en que se recibió la consulta 📆"])
    | none => (r.1, noEff)
  | _, _ => (s, noEff)

/-- GeconsultaInstanceBot.handle_received_date: the date selector is reused
with persist semantics. -/
def GeconsultaInstanceBot.handle_received_date (env : Env) (s : GeconsultaInstanceBot)
    (has_callback : Bool) (cb_data : Option String) (selector : Option SelectorRef) :
    GeconsultaInstanceBot × Effects :=
  match selector, has_callback with
  | some ref, true =>
    let r := s.apply_selector ref cb_data
    match r.2 with
    | some data =>
      let s1 := { r.1 with consulta := { r.1.consulta with received_date := data },
                           input_state := .INPUT_START_DATE }
      let dsel := (s1.date_selector.reset true env.now).get_inline_keyboard
      ({ s1 with date_selector := dsel },
       Effects.say ["¡Buenísimo! Selecciona la fecha en que se atendió la consulta 📆"])
    | none => (r.1, noEff)
  | _, _ => (s, noEff)

/-- GeconsultaInstanceBot.handle_start_date: the date selector is reset
without persist before the end date. -/
def GeconsultaInstanceBot.handle_start_date (env : Env) (s : GeconsultaInstanceBot)
    (has_callback : Bool) (cb_data : Option String) (selector : Option SelectorRef) :
    GeconsultaInstanceBot × Effects :=
  match selector, has_callback with
  | some ref, true =>
    let r := s.apply_selector ref cb_data
    match r.2 with
    | some data =>
      let s1 := { r.1 with consulta := { r.1.consulta with start_date := data },
                           input_state := .INPUT_END_DATE }
      let dsel := (s1.date_selector.reset false env.now).get_inline_keyboard
      ({ s1 with date_selector := dsel },
       Effects.say ["¡Perfecto! Por último, selecciona la fecha en que terminó la consulta 📆"])
    | none => (r.1, noEff)
  | _, _ => (s, noEff)

/-- GeconsultaInstanceBot.handle_end_date: on a terminal date, complete the
record, push it to SheetManager.request_input, send the three confirmation
replies, and restart the instance silently. -/
def GeconsultaInstanceBot.handle_end_date (env : Env) (s : GeconsultaInstanceBot)
    (has_callback : Bool) (cb_data : Option String) (selector : Option SelectorRef) :
    GeconsultaInstanceBot × Effects :=
  match selector, has_callback with
  | some ref, true =>
    let r := s.apply_selector ref cb_data
    match r.2 with
    | some data =>
      let s1 := { r.1 with consulta := { r.1.consulta with end_date := data },
                           input_state := .INPUT_STATE_END }
      let push : Effects := { replies := [], enqueued := [s1.consulta] }
      let confirm := Effects.say
        ["¡Tu consulta ha sido enviada! 🎉🎉",
         "Puedes confirmar luego en la spreadsheet si tu consulta ha sido procesada correctamente 🔎",
         "¡Que tengas un buen día! ✨ Recuerda que puedes usar /registrar para subir una nueva consulta 🙂"]
      let r2 := GeconsultaInstanceBot.restart env s1 true
      (r2.1, Effects.append push (Effects.append confirm r2.2))
    | none => (r.1, noEff)
  | _, _ => (s, noEff)

/-- GeconsultaInstanceBot.handle_input_end. -/
def GeconsultaInstanceBot.handle_input_end (s : GeconsultaInstanceBot) :
    GeconsultaInstanceBot × Effects :=
  (s, noEff)

/-- GeconsultaInstanceBot.handle_message: text input is dispatched through
input_state_map only while mid-entry and authenticated, else through
auth_state_map while authenticating. On the message path
update.callback_query is None and the selector parameter keeps its default
None, so the three-parameter handlers fall through to their no-op branch. -/
def GeconsultaInstanceBot.handle_message (env : Env) (s : GeconsultaInstanceBot)
    (text : Option String) : GeconsultaInstanceBot × Effects :=
  if s.input_state.value > InputState.INPUT_STATE_IDLE.value ∧
      s.auth_state = .AUTH_IS_AUTHENTICATED then
    match s.input_state with
    | .INPUT_STATE_IDLE => s.handle_input_idle
    | .INPUT_STUDENT_NAME => GeconsultaInstanceBot.handle_student_name env s text
    | .INPUT_COURSE_NAME => GeconsultaInstanceBot.handle_course_name env s false none none
    | .INPUT_ASSIST_NAME => GeconsultaInstanceBot.handle_assist_name env s false none none
    | .INPUT_AUX_NAME => s.handle_aux_name false none none
    | .INPUT_RECEIVED_DATE => GeconsultaInstanceBot.handle_received_date env s false none none
    | .INPUT_START_DATE => GeconsultaInstanceBot.handle_start_date env s false none none
    | .INPUT_END_DATE => GeconsultaInstanceBot.handle_end_date env s false none none
    | .INPUT_STATE_END => s.handle_input_end
  else if s.auth_state = .AUTH_IS_AUTHENTICATING then
    GeconsultaInstanceBot.handle_authenticating env s text
  else (s, noEff)

/-- The outcome of one inbound callback delivery: the session as mutated so
far, the outward effects, and whether the dispatched call raised (the
two-parameter handlers raise TypeError when handle_inline_query passes
them the extra selector argument). -/
structure StepResult where
  session : GeconsultaInstanceBot
  effects : Effects
  error : Bool
deriving Repr

/-- The call state_function(update, context, selector) made by
GeconsultaInstanceBot.handle_inline_query, through input_state_map. The
handlers for INPUT_STATE_IDLE, INPUT_STUDENT_NAME and INPUT_STATE_END
accept only (update, context), so the three-argument call raises
TypeError there. -/
def GeconsultaInstanceBot.inline_state_dispatch (env : Env) (s1 : GeconsultaInstanceBot)
    (d : String) (selector : Option SelectorRef) : StepResult :=
  let ok := fun (r : GeconsultaInstanceBot × Effects) =>
    { session := r.1, effects := r.2, error := false : StepResult }
  match s1.input_state with
  | .INPUT_STATE_IDLE => { session := s1, effects := noEff, error := true }
  | .INPUT_STUDENT_NAME => { session := s1, effects := noEff, error := true }
  | .INPUT_STATE_END => { session := s1, effects := noEff, error := true }
  | .INPUT_COURSE_NAME => ok (GeconsultaInstanceBot.handle_course_name env s1 true (some d) selector)
  | .INPUT_ASSIST_NAME => ok (GeconsultaInstanceBot.handle_assist_name env s1 true (some d) selector)
  | .INPUT_AUX_NAME => ok (s1.handle_aux_name true (some d) selector)
  | .INPUT_RECEIVED_DATE => ok (GeconsultaInstanceBot.handle_received_date env s1 true (some d) selector)
  | .INPUT_START_DATE => ok (GeconsultaInstanceBot.handle_start_date env s1 true (some d) selector)
  | .INPUT_END_DATE => ok (GeconsultaInstanceBot.handle_end_date env s1 true (some d) selector)

/-- GeconsultaInstanceBot.handle_inline_query: lazily bind the message id
to current_selector, then dispatch state_function(update, context,
selector) with the stored selector reference. -/
def GeconsultaInstanceBot.handle_inline_query (env : Env) (s : GeconsultaInstanceBot)
    (message_id : Nat) (cb_data : Option String) : StepResult :=
  let s1 := if alookup s.selector_map message_id = none then
              { s with selector_map := s.selector_map ++ [(message_id, s.current_selector)] }
            else s
  match cb_data with
  | none => { session := s1, effects := noEff, error := false }
  | some d =>
    GeconsultaInstanceBot.inline_state_dispatch env s1 d
      ((alookup s1.selector_map message_id).getD none)

/-- The events one session can receive (the command set registered in
GeconsultasBot.add_handlers, the text-message handler, and the callback
handler). -/
inductive IEvent
  | startCmd
  | helpCmd
  | registerCmd
  | restartCmd
  | authCmd
  | logoutCmd
  | msg (text : Option String)
  | cb (message_id : Nat) (data : Option String)
deriving DecidableEq, Repr

/-- One inbound event delivered to a session: the union of every
entry point of GeconsultaInstanceBot. -/
def GeconsultaInstanceBot.handle_event (env : Env) (e : IEvent) (s : GeconsultaInstanceBot) :
    StepResult :=
  match e with
  | .startCmd =>
    let r := GeconsultaInstanceBot.start env s
    { session := r.1, effects := r.2, error := false }
  | .helpCmd =>
    let r := s.show_help
    { session := r.1, effects := r.2, error := false }
  | .registerCmd =>
    let r := s.register
    { session := r.1, effects := r.2, error := false }
  | .restartCmd =>
    let r := GeconsultaInstanceBot.restart env s false
    { session := r.1, effects := r.2, error := false }
  | .authCmd =>
    let r := s.auth
    { session := r.1, effects := r.2, error := false }
  | .logoutCmd =>
    let r := GeconsultaInstanceBot.logout env s false
    { session := r.1, effects := r.2.1, error := false }
  | .msg text =>
    let r := GeconsultaInstanceBot.handle_message env s text
    { session := r.1, effects := r.2, error := false }
  | .cb message_id data => GeconsultaInstanceBot.handle_inline_query env s message_id data

/-! ### bot.py: the session router (GeconsultasBot) -/

/-- bot.py GeconsultasBot state: the shared secret hash read from the
environment at startup and the active user map. The Updater / Dispatcher /
SheetManager wiring is external. -/
structure GeconsultasBot where
  auth_hash : String
  user_map : List (Nat × GeconsultaInstanceBot)

/-- The inbound events GeconsultasBot dispatches, each carrying the user id
the transport resolves it from. -/
inductive GEvent
  | start (uid : Nat)
  | help (uid : Nat)
  | registrar (uid : Nat)
  | restartCmd (uid : Nat)
  | authCmd (uid : Nat)
  | logout (uid : Nat)
  | message (uid : Nat) (text : Option String)
  | callback (uid : Nat) (message_id : Nat) (data : Option String)
deriving DecidableEq, Repr

/-- The user id an event is resolved from (update.message.from_user.id, or
update.callback_query.from_user.id on the inline path). -/
def GEvent.uid : GEvent → Nat
  | .start u => u
  | .help u => u
  | .registrar u => u
  | .restartCmd u => u
  | .authCmd u => u
  | .logout u => u
  | .message u _ => u
  | .callback u _ _ => u

/-- GeconsultasBot.call_instance_method: resolve the user's instance bot
and call the method on it (mutating the stored instance in place); an
unknown user is a no-op. -/
def GeconsultasBot.call_instance_method (r : GeconsultasBot) (uid : Nat)
    (f : GeconsultaInstanceBot → GeconsultaInstanceBot × Effects) : GeconsultasBot × Effects :=
  match alookup r.user_map uid with
  | some s =>
    let fr := f s
    ({ r with user_map := setEntry r.user_map uid fr.1 }, fr.2)
  | none => (r, noEff)

/-- GeconsultasBot event dispatch: start lazily creates the instance before
forwarding; logout pops the user map entry exactly when the instance-level
logout returned True; every other event is forwarded to the existing
instance and dropped for unknown users. -/
def GeconsultasBot.dispatch (env : Env) (r : GeconsultasBot) (e : GEvent) :
    GeconsultasBot × Effects :=
  match e with
  | .start uid =>
    let m := if alookup r.user_map uid = none then
               r.user_map ++ [(uid, GeconsultaInstanceBot.init uid r.auth_hash env.now)]
             else r.user_map
    GeconsultasBot.call_instance_method { r with user_map := m } uid
      (fun s => GeconsultaInstanceBot.start env s)
  | .help uid => r.call_instance_method uid (fun s => s.show_help)
  | .registrar uid => r.call_instance_method uid (fun s => s.register)
  | .restartCmd uid =>
    r.call_instance_method uid (fun s => GeconsultaInstanceBot.restart env s false)
  | .authCmd uid => r.call_instance_method uid (fun s => s.auth)
  | .logout uid =>
    match alookup r.user_map uid with
    | some s =>
      let q := GeconsultaInstanceBot.logout env s false
      let m1 := setEntry r.user_map uid q.1
      if q.2.2 then ({ r with user_map := removeEntry m1 uid }, q.2.1)
      else ({ r with user_map := m1 }, q.2.1)
    | none => (r, noEff)
  | .message uid text =>
    r.call_instance_method uid (fun s => GeconsultaInstanceBot.handle_message env s text)
  | .callback uid message_id data =>
    r.call_instance_method uid (fun s =>
      let sr := GeconsultaInstanceBot.handle_inline_query env s message_id data
      (sr.session, sr.effects))


/-! ### Concrete samples for witnesses and counterexamples -/

def confirmSample : InlineDateSelector :=
  { selector_state := .SELECTION_ACTIVE, confirmed_date := none, year := 2025,
    month_number := 1, month_abbr := "Jan", days_in_month := 31, day := 5,
    time_hour := 9, time_minute := 4 }

/-- Modelled from the spec: the timestamp layout the spec describes, with
the month, day, hour and minute fields zero-padded to two digits. -/
def spec_padded_timestamp (Y M D h m : Int) : String :=
  toString Y ++ "/" ++ pad_zeros M 2 ++ "/" ++ pad_zeros D 2 ++ " " ++
  pad_zeros h 2 ++ ":" ++ pad_zeros m 2 ++ ":00"

/-- A fixed sample of the external inputs, for concrete evaluations. -/
def env0 : Env :=
  { hash_string := fun t => t ++ "#", course_data := ["CALC1", "FIS1"],
    assist_data := ["Luis", "Marta"], now := ⟨2025, 1, 5, 9, 4⟩ }

/-- An authenticated session waiting for the student name (free text). -/
def studentNameSession : GeconsultaInstanceBot :=
  { GeconsultaInstanceBot.init 1 "pw#" env0.now with
      auth_state := .AUTH_IS_AUTHENTICATED, input_state := .INPUT_STUDENT_NAME }

/-- An authenticated session in the idle input state. -/
def idleInputSession : GeconsultaInstanceBot :=
  { GeconsultaInstanceBot.init 1 "pw#" env0.now with
      auth_state := .AUTH_IS_AUTHENTICATED }

/-- A concrete authenticated mid-flow session with one pending-selection
binding, used to exhibit map clearing. -/
def boundMapSession : GeconsultaInstanceBot :=
  { GeconsultaInstanceBot.init 1 "pw#" env0.now with
      auth_state := .AUTH_IS_AUTHENTICATED, input_state := .INPUT_END_DATE,
      selector_map := [(5, some SelectorRef.dateSel)] }

/-- An active paginated selector over five fetched rows. -/
def pagSel : InlineSelector :=
  { selector_state := .SELECTION_ACTIVE, page_length := 4, page_index := 0,
    data := some ["a", "b", "c", "d", "e"] }

/-- The sample date wheel positioned at month 12. -/
def month12Sample : InlineDateSelector := { confirmSample with month_number := 12 }

/-- A session amid authentication. -/
def authSession : GeconsultaInstanceBot :=
  { GeconsultaInstanceBot.init 1 "pw#" env0.now with
      auth_state := .AUTH_IS_AUTHENTICATING }

/-- An authenticated session at the end-date step with an active date wheel
bound in the pending-selection map. -/
def endDateSession : GeconsultaInstanceBot :=
  { GeconsultaInstanceBot.init 1 "pw#" env0.now with
      auth_state := .AUTH_IS_AUTHENTICATED, input_state := .INPUT_END_DATE,
      date_selector := confirmSample, selector_map := [(9, some SelectorRef.dateSel)] }

/-- A router with one active session. -/
def router0 : GeconsultasBot :=
  { auth_hash := "pw#", user_map := [(1, studentNameSession)] }

/-! ### Theorems -/

/-- Claim C5: adjusting the month upward at 12 yields 1 and downward at 1
yields 12; after any month change days-in-month is recomputed for the new
month, the day counter is clamped down to that maximum when it exceeds it,
and a month change never increases the day. -/
theorem update_month_wrap_and_clamp (d : InlineDateSelector) (is_up : Bool) :
    ((d.month_number = 12 → is_up = true → (d.update_month is_up).month_number = 1)
    ∧ (d.month_number = 1 → is_up = false → (d.update_month is_up).month_number = 12)
    ∧ (d.update_month is_up).days_in_month =
        monthrange_days d.year (d.update_month is_up).month_number
    ∧ (d.update_month is_up).day =
        (if d.day > (d.update_month is_up).days_in_month
         then (d.update_month is_up).days_in_month else d.day)
    ∧ (d.update_month is_up).day ≤ d.day) := by
  unfold InlineDateSelector.update_month
  simp only [CONST_MAX_MONTHS]
  refine ⟨?_, ?_, ?_, ?_, ?_⟩ <;> cases is_up <;>
    first
      | trivial
      | (split_ifs <;> first | rfl | omega | simp_all)

/-- Claim C4: on the paginated selector, a callback outside the Active
state is a no-op; left navigation at page index 0 and right navigation on
the last page are no-ops; valid navigation moves the page index by exactly
one; and a literal (non-reserved) token completes the selector and is
returned verbatim. -/
theorem paginated_callback_cases (sel : InlineSelector) (tok : String) (l : List String)
    (hd : sel.data = some l) :
    ((sel.selector_state ≠ .SELECTION_ACTIVE →
        sel.handle_callback_query (some tok) = (sel, none))
    ∧ (sel.selector_state = .SELECTION_ACTIVE → tok = "$left" → sel.page_index = 0 →
        sel.handle_callback_query (some tok) = (sel, none))
    ∧ (sel.selector_state = .SELECTION_ACTIVE → tok = "$right" →
        (l.length : Int) ≤ (sel.page_index + 1) * sel.page_length →
        sel.handle_callback_query (some tok) = (sel, none))
    ∧ (sel.selector_state = .SELECTION_ACTIVE → tok = "$left" → sel.page_index ≠ 0 →
        sel.handle_callback_query (some tok) =
          ({ sel with page_index := sel.page_index + -1,
                      selector_state := .SELECTION_ACTIVE }, none))
    ∧ (sel.selector_state = .SELECTION_ACTIVE → tok = "$right" →
        (sel.page_index + 1) * sel.page_length < (l.length : Int) →
        sel.handle_callback_query (some tok) =
          ({ sel with page_index := sel.page_index + 1,
                      selector_state := .SELECTION_ACTIVE }, none))
    ∧ (sel.selector_state = .SELECTION_ACTIVE →
        tok ≠ "$left" → tok ≠ "$right" → tok ≠ "$noop" →
        sel.handle_callback_query (some tok) =
          ({ sel with selector_state := .SELECTION_COMPLETE }, some tok))) := by
  refine ⟨?_, ?_, ?_, ?_, ?_, ?_⟩
  · intro h
    simp [InlineSelector.handle_callback_query, h]
  · intro h ht hp
    subst ht
    simp [InlineSelector.handle_callback_query, h, InlineSelector.is_action,
      InlineSelectorAction.has_action, InlineSelector.handle_selector_action,
      InlineSelector.is_action_valid, hp]
  · intro h ht hb
    subst ht
    simp [InlineSelector.handle_callback_query, h, InlineSelector.is_action,
      InlineSelectorAction.has_action, InlineSelector.handle_selector_action,
      InlineSelector.is_action_valid, hd, hb]
  · intro h ht hp
    subst ht
    simp [InlineSelector.handle_callback_query, h, InlineSelector.is_action,
      InlineSelectorAction.has_action, InlineSelector.handle_selector_action,
      InlineSelector.is_action_valid, hp, InlineSelector.get_inline_keyboard, hd]
  · intro h ht hb
    subst ht
    simp [InlineSelector.handle_callback_query, h, InlineSelector.is_action,
      InlineSelectorAction.has_action, InlineSelector.handle_selector_action,
      InlineSelector.is_action_valid, hd, not_le.mpr hb,
      InlineSelector.get_inline_keyboard]
  · intro h h1 h2 h3
    simp [InlineSelector.handle_callback_query, h, InlineSelector.is_action,
      InlineSelectorAction.has_action, h1, h2, h3]

/-- Claim C9: while the paginated selector is Active, every payload that is
not exactly one of the reserved action strings is accepted as the terminal
selection and returned verbatim, whether or not it starts with the reserved
marker or occurs in the fetched data. -/
theorem non_reserved_token_terminal (sel : InlineSelector) (tok : String)
    (hact : sel.selector_state = .SELECTION_ACTIVE)
    (h1 : tok ≠ "$left") (h2 : tok ≠ "$right") (h3 : tok ≠ "$noop") :
    sel.handle_callback_query (some tok) =
      ({ sel with selector_state := .SELECTION_COMPLETE }, some tok) := by
  simp [InlineSelector.handle_callback_query, hact, InlineSelector.is_action,
    InlineSelectorAction.has_action, h1, h2, h3]


/-- Evaluation of a confirm press on an active date wheel (shared helper). -/
theorem date_confirm_eval (d : InlineDateSelector)
    (hact : d.selector_state = .SELECTION_ACTIVE) :
    d.handle_callback_query (some "$date_confirm") =
      ({ d with confirmed_date := some (DATE_STR_FORMAT_apply d.year d.month_number
                  d.day d.time_hour d.time_minute),
                selector_state := .SELECTION_COMPLETE },
       some (DATE_STR_FORMAT_apply d.year d.month_number d.day d.time_hour d.time_minute)) := by
  simp [InlineDateSelector.handle_callback_query, hact, InlineDateSelector.is_action,
    InlineDateSelectorAction.has_action, InlineDateSelector.handle_selector_action,
    InlineDateSelector.is_action_valid, InlineDateSelector.handle_confirm]

/-- Claim C6 (amended): a confirm action on an Active date wheel returns
the Y/M/D h:m:00 timestamp with each counter rendered by str() without
zero-padding, and completes the selector. -/
theorem confirm_timestamp_layout (d : InlineDateSelector)
    (hact : d.selector_state = .SELECTION_ACTIVE) :
    (d.handle_callback_query (some "$date_confirm")).2 =
      some (DATE_STR_FORMAT_apply d.year d.month_number d.day d.time_hour d.time_minute)
    ∧ (d.handle_callback_query (some "$date_confirm")).1.selector_state =
        .SELECTION_COMPLETE := by
  rw [date_confirm_eval d hact]
  exact ⟨rfl, rfl⟩

/-- Claim C6, counterexample to the claim as stated: the terminal value for
the wheel at 2025-01-05 09:04 is "2025/1/5 9:4:00", which is not the
zero-padded two-digit rendering the claim describes. -/
theorem confirm_not_zero_padded :
    (confirmSample.handle_callback_query (some "$date_confirm")).2 = some "2025/1/5 9:4:00"
    ∧ "2025/1/5 9:4:00" ≠ spec_padded_timestamp 2025 1 5 9 4 := by
  constructor
  · rfl
  · decide

/-- Claim C2: while Authenticating, a text message authenticates the
session iff the digest of the submitted text equals the pre-configured
secret hash; on a mismatch the state is unchanged and the only effect is
the retry prompt. -/
theorem authenticating_text_transition (env : Env) (s : GeconsultaInstanceBot) (t : String)
    (hs : s.auth_state = .AUTH_IS_AUTHENTICATING) :
    (((GeconsultaInstanceBot.handle_message env s (some t)).1.auth_state =
        .AUTH_IS_AUTHENTICATED) ↔ env.hash_string t = s.auth_hash)
    ∧ (env.hash_string t ≠ s.auth_hash →
        (GeconsultaInstanceBot.handle_message env s (some t)).1 = s
        ∧ (GeconsultaInstanceBot.handle_message env s (some t)).2 =
            Effects.say ["Contraseña inválida, por favor intenta nuevamente."]) := by
  by_cases h : env.hash_string t = s.auth_hash
  · simp [GeconsultaInstanceBot.handle_message, hs,
      GeconsultaInstanceBot.handle_authenticating, h]
  · simp [GeconsultaInstanceBot.handle_message, hs,
      GeconsultaInstanceBot.handle_authenticating, h]

/-- Claim C10: register issued while Authenticated mutates only FormRecord
(cleared when already mid-flow) and InputState (set to StudentName); both
paginated selectors, the date wheel and the pending-selection map are left
unchanged, while restart (also run by logout and flow completion) is what
resets them. -/
theorem register_frame (env : Env) (s : GeconsultaInstanceBot)
    (hauth : s.auth_state = .AUTH_IS_AUTHENTICATED) :
    (s.register.1.course_name_selector = s.course_name_selector
    ∧ s.register.1.assist_name_selector = s.assist_name_selector
    ∧ s.register.1.date_selector = s.date_selector
    ∧ s.register.1.selector_map = s.selector_map
    ∧ s.register.1.auth_state = s.auth_state
    ∧ s.register.1.input_state = .INPUT_STUDENT_NAME
    ∧ s.register.1.consulta =
        (if s.input_state.value > InputState.INPUT_STATE_IDLE.value
         then Consulta.init else s.consulta)
    ∧ s.register.2.enqueued = []
    ∧ (GeconsultaInstanceBot.restart env s true).1.course_name_selector =
        s.course_name_selector.reset
    ∧ (GeconsultaInstanceBot.restart env s true).1.assist_name_selector =
        s.assist_name_selector.reset
    ∧ (GeconsultaInstanceBot.restart env s true).1.date_selector =
        s.date_selector.reset false env.now
    ∧ (GeconsultaInstanceBot.restart env s true).1.selector_map = []) := by
  unfold GeconsultaInstanceBot.register GeconsultaInstanceBot.restart
    GeconsultaInstanceBot.restart_inline_selectors
  rw [if_neg (by simp [hauth]), if_pos hauth]
  split_ifs <;> simp [Effects.say]


/-- Claim C8, evaluation at the failing input: a button callback arriving
while InputState is StudentName (or Idle) mutates the pending-selection map
and then raises TypeError from the three-argument dispatch into a
two-parameter handler, contradicting the claim that the state is unchanged
and no unhandled exception occurs. -/
theorem inline_callback_in_text_state_raises :
    (GeconsultaInstanceBot.handle_inline_query env0 studentNameSession 7 (some "X")).error = true
    ∧ (GeconsultaInstanceBot.handle_inline_query env0 studentNameSession 7
        (some "X")).session.selector_map = [(7, none)]
    ∧ studentNameSession.selector_map = []
    ∧ (GeconsultaInstanceBot.handle_inline_query env0 idleInputSession 7 (some "X")).error
        = true := by
  exact ⟨rfl, rfl, rfl, rfl⟩

theorem reset_false_eq_init (d : InlineDateSelector) (today : Now) :
    d.reset false today = InlineDateSelector.init today := rfl

/-- Dispatch shape of handle_inline_query in the end-date state with a bound
date selector (shared helper). -/
theorem handle_inline_query_end_date (env : Env) (s : GeconsultaInstanceBot)
    (message_id : Nat) (d : String)
    (hin : s.input_state = .INPUT_END_DATE)
    (hbound : alookup s.selector_map message_id = some (some SelectorRef.dateSel)) :
    GeconsultaInstanceBot.handle_inline_query env s message_id (some d) =
      { session := (GeconsultaInstanceBot.handle_end_date env s true (some d)
          (some SelectorRef.dateSel)).1,
        effects := (GeconsultaInstanceBot.handle_end_date env s true (some d)
          (some SelectorRef.dateSel)).2,
        error := false } := by
  unfold GeconsultaInstanceBot.handle_inline_query GeconsultaInstanceBot.inline_state_dispatch
  rw [hbound]
  simp only [reduceCtorEq, if_neg, ite_false]
  rw [hin]
  rw [hbound]
  simp only [Option.getD_some]

/-- Claim C1: in the EndDate state, a terminal value from the bound date
selector pushes the completed record to the sink exactly once, sends
exactly three confirmation replies, and silently resets InputState,
FormRecord, every selector and the pending-selection map. -/
theorem end_date_terminal_flow (env : Env) (s : GeconsultaInstanceBot) (message_id : Nat)
    (hauth : s.auth_state = .AUTH_IS_AUTHENTICATED)
    (hin : s.input_state = .INPUT_END_DATE)
    (hbound : alookup s.selector_map message_id = some (some SelectorRef.dateSel))
    (hact : s.date_selector.selector_state = .SELECTION_ACTIVE) :
    ((GeconsultaInstanceBot.handle_inline_query env s message_id
        (some "$date_confirm")).error = false
    ∧ (GeconsultaInstanceBot.handle_inline_query env s message_id
        (some "$date_confirm")).effects.enqueued =
        [{ s.consulta with
             end_date := (DATE_STR_FORMAT_apply s.date_selector.year
               s.date_selector.month_number s.date_selector.day
               s.date_selector.time_hour s.date_selector.time_minute) }]
    ∧ (GeconsultaInstanceBot.handle_inline_query env s message_id
        (some "$date_confirm")).effects.replies.length = 3
    ∧ (GeconsultaInstanceBot.handle_inline_query env s message_id
        (some "$date_confirm")).session.input_state = .INPUT_STATE_IDLE
    ∧ (GeconsultaInstanceBot.handle_inline_query env s message_id
        (some "$date_confirm")).session.consulta = Consulta.init
    ∧ (GeconsultaInstanceBot.handle_inline_query env s message_id
        (some "$date_confirm")).session.course_name_selector = s.course_name_selector.reset
    ∧ (GeconsultaInstanceBot.handle_inline_query env s message_id
        (some "$date_confirm")).session.assist_name_selector = s.assist_name_selector.reset
    ∧ (GeconsultaInstanceBot.handle_inline_query env s message_id
        (some "$date_confirm")).session.date_selector = InlineDateSelector.init env.now
    ∧ (GeconsultaInstanceBot.handle_inline_query env s message_id
        (some "$date_confirm")).session.selector_map = []) := by
  have hdc := date_confirm_eval s.date_selector hact
  rw [handle_inline_query_end_date env s message_id _ hin hbound]
  simp [GeconsultaInstanceBot.handle_end_date, GeconsultaInstanceBot.apply_selector, hdc,
    GeconsultaInstanceBot.restart, GeconsultaInstanceBot.restart_inline_selectors, hauth,
    Effects.append, Effects.say, noEff, reset_false_eq_init]


theorem alookup_none_iff {α : Type} (l : List (Nat × α)) (k : Nat) :
    alookup l k = none ↔ k ∉ l.map Prod.fst := by
  induction l with
  | nil => simp [alookup]
  | cons p t ih =>
    by_cases h : p.1 = k <;> simp [alookup, h, ih] <;> omega

theorem alookup_mem_keys {α : Type} {l : List (Nat × α)} {k : Nat} {v : α}
    (h : alookup l k = some v) : k ∈ l.map Prod.fst := by
  by_contra hc
  rw [← alookup_none_iff] at hc
  rw [h] at hc
  cases hc

theorem keys_setEntry {α : Type} (l : List (Nat × α)) (k : Nat) (v : α) :
    (setEntry l k v).map Prod.fst = l.map Prod.fst := by
  induction l with
  | nil => rfl
  | cons p t ih =>
    by_cases h : p.1 = k <;> simp [setEntry, h] <;> simpa [setEntry] using ih

theorem keys_removeEntry {α : Type} (l : List (Nat × α)) (k : Nat) :
    (removeEntry l k).map Prod.fst = (l.map Prod.fst).filter (fun x => x != k) := by
  rw [removeEntry, List.filter_map]
  rfl

theorem mem_keys_removeEntry {α : Type} (l : List (Nat × α)) (k k' : Nat) :
    k' ∈ (removeEntry l k).map Prod.fst ↔ (k' ∈ l.map Prod.fst ∧ k' ≠ k) := by
  rw [keys_removeEntry]
  simp [List.mem_filter]

theorem nodup_keys_removeEntry {α : Type} (l : List (Nat × α)) (k : Nat)
    (h : (l.map Prod.fst).Nodup) : ((removeEntry l k).map Prod.fst).Nodup := by
  rw [keys_removeEntry]
  exact h.filter _

theorem alookup_append_some {α : Type} {l : List (Nat × α)} {k : Nat} {v : α}
    (h : alookup l k = some v) (l2 : List (Nat × α)) : alookup (l ++ l2) k = some v := by
  induction l with
  | nil => cases h
  | cons p t ih =>
    by_cases hp : p.1 = k <;> simp [alookup, hp] at h ⊢ <;> simp_all [ih]

theorem alookup_append_none {α : Type} {l : List (Nat × α)} {k : Nat}
    (h : alookup l k = none) (l2 : List (Nat × α)) : alookup (l ++ l2) k = alookup l2 k := by
  induction l with
  | nil => rfl
  | cons p t ih =>
    by_cases hp : p.1 = k <;> simp [alookup, hp] at h ⊢ <;> simp_all


theorem call_instance_keys (r : GeconsultasBot) (uid : Nat)
    (f : GeconsultaInstanceBot → GeconsultaInstanceBot × Effects) :
    ((r.call_instance_method uid f).1.user_map.map Prod.fst) = r.user_map.map Prod.fst := by
  unfold GeconsultasBot.call_instance_method
  cases h : alookup r.user_map uid <;> simp [h, keys_setEntry]

theorem call_instance_unknown (r : GeconsultasBot) (uid : Nat)
    (f : GeconsultaInstanceBot → GeconsultaInstanceBot × Effects)
    (h : alookup r.user_map uid = none) :
    r.call_instance_method uid f = (r, noEff) := by
  unfold GeconsultasBot.call_instance_method
  rw [h]

theorem logout_true_iff (env : Env) (s : GeconsultaInstanceBot) (noupdate : Bool) :
    (GeconsultaInstanceBot.logout env s noupdate).2.2 = true ↔
      s.auth_state = .AUTH_IS_AUTHENTICATED := by
  unfold GeconsultaInstanceBot.logout
  split_ifs with h <;> simp [h]

/-- Claim C3: the router's user table keeps at most one session per user id
(distinct keys are preserved), an entry appears only through a start event
from an unseen user id, an entry disappears only through a logout of a user
whose session was Authenticated, and a non-start event from an unknown user
id is dropped as a no-op. -/
theorem router_user_table_invariant (env : Env) (r : GeconsultasBot) (e : GEvent)
    (hnd : (r.user_map.map Prod.fst).Nodup) :
    (((GeconsultasBot.dispatch env r e).1.user_map.map Prod.fst).Nodup
    ∧ (∀ uid, uid ∈ (GeconsultasBot.dispatch env r e).1.user_map.map Prod.fst →
        uid ∉ r.user_map.map Prod.fst → e = GEvent.start uid)
    ∧ (∀ uid, uid ∈ r.user_map.map Prod.fst →
        uid ∉ (GeconsultasBot.dispatch env r e).1.user_map.map Prod.fst →
        e = GEvent.logout uid ∧
          ∃ s, alookup r.user_map uid = some s ∧ s.auth_state = .AUTH_IS_AUTHENTICATED)
    ∧ ((∀ v, e ≠ GEvent.start v) → alookup r.user_map e.uid = none →
        GeconsultasBot.dispatch env r e = (r, noEff))) := by
  have generic : ∀ uid (f : GeconsultaInstanceBot → GeconsultaInstanceBot × Effects),
      GeconsultasBot.dispatch env r e = r.call_instance_method uid f →
      (((GeconsultasBot.dispatch env r e).1.user_map.map Prod.fst).Nodup
      ∧ (∀ u, u ∈ (GeconsultasBot.dispatch env r e).1.user_map.map Prod.fst →
          u ∉ r.user_map.map Prod.fst → e = GEvent.start u)
      ∧ (∀ u, u ∈ r.user_map.map Prod.fst →
          u ∉ (GeconsultasBot.dispatch env r e).1.user_map.map Prod.fst →
          e = GEvent.logout u ∧
            ∃ s, alookup r.user_map u = some s ∧ s.auth_state = .AUTH_IS_AUTHENTICATED)) := by
    intro uid f hd
    rw [hd]
    rw [show ((r.call_instance_method uid f).1.user_map.map Prod.fst) =
      r.user_map.map Prod.fst from call_instance_keys r uid f] at *
    exact ⟨hnd, fun u hu hnu => absurd hu hnu, fun u hu hnu => absurd hu hnu⟩
  cases e with
  | start uid =>
    refine ⟨?_, ?_, ?_, fun hne _ => absurd rfl (hne uid)⟩
    · cases h : alookup r.user_map uid with
      | none =>
        have hk : (GeconsultasBot.dispatch env r (GEvent.start uid)).1.user_map.map Prod.fst =
            r.user_map.map Prod.fst ++ [uid] := by
          simp only [GeconsultasBot.dispatch]
          rw [if_pos h, call_instance_keys]
          simp
        rw [hk]
        refine hnd.append (List.nodup_singleton uid) ?_
        intro a ha hb
        rw [List.mem_singleton] at hb
        subst hb
        exact (alookup_none_iff r.user_map a).mp h ha
      | some s =>
        have hk : (GeconsultasBot.dispatch env r (GEvent.start uid)).1.user_map.map Prod.fst =
            r.user_map.map Prod.fst := by
          simp only [GeconsultasBot.dispatch]
          rw [if_neg (by rw [h]; exact fun hc => by cases hc), call_instance_keys]
        rw [hk]
        exact hnd
    · intro u hu hnu
      cases h : alookup r.user_map uid with
      | none =>
        have hk : (GeconsultasBot.dispatch env r (GEvent.start uid)).1.user_map.map Prod.fst =
            r.user_map.map Prod.fst ++ [uid] := by
          simp only [GeconsultasBot.dispatch]
          rw [if_pos h, call_instance_keys]
          simp
        rw [hk] at hu
        rcases List.mem_append.mp hu with hu | hu
        · exact absurd hu hnu
        · rw [List.mem_singleton] at hu
          rw [hu]
      | some s =>
        have hk : (GeconsultasBot.dispatch env r (GEvent.start uid)).1.user_map.map Prod.fst =
            r.user_map.map Prod.fst := by
          simp only [GeconsultasBot.dispatch]
          rw [if_neg (by rw [h]; exact fun hc => by cases hc), call_instance_keys]
        rw [hk] at hu
        exact absurd hu hnu
    · intro u hu hnu
      exfalso
      cases h : alookup r.user_map uid with
      | none =>
        have hk : (GeconsultasBot.dispatch env r (GEvent.start uid)).1.user_map.map Prod.fst =
            r.user_map.map Prod.fst ++ [uid] := by
          simp only [GeconsultasBot.dispatch]
          rw [if_pos h, call_instance_keys]
          simp
        rw [hk] at hnu
        exact hnu (List.mem_append.mpr (Or.inl hu))
      | some s =>
        have hk : (GeconsultasBot.dispatch env r (GEvent.start uid)).1.user_map.map Prod.fst =
            r.user_map.map Prod.fst := by
          simp only [GeconsultasBot.dispatch]
          rw [if_neg (by rw [h]; exact fun hc => by cases hc), call_instance_keys]
        rw [hk] at hnu
        exact hnu hu
  | logout uid =>
    cases h : alookup r.user_map uid with
    | none =>
      have hd : GeconsultasBot.dispatch env r (GEvent.logout uid) = (r, noEff) := by
        simp only [GeconsultasBot.dispatch, h]
      rw [hd]
      exact ⟨hnd, fun u hu hnu => absurd hu hnu, fun u hu hnu => absurd hu hnu,
        fun _ _ => rfl⟩
    | some s =>
      by_cases hb : (GeconsultaInstanceBot.logout env s false).2.2 = true
      · have hk : (GeconsultasBot.dispatch env r (GEvent.logout uid)).1.user_map.map Prod.fst =
            (r.user_map.map Prod.fst).filter (fun x => x != uid) := by
          simp only [GeconsultasBot.dispatch, h]
          rw [if_pos hb, keys_removeEntry, keys_setEntry]
        refine ⟨?_, ?_, ?_, ?_⟩
        · rw [hk]
          exact hnd.filter _
        · intro u hu hnu
          rw [hk] at hu
          exact absurd (List.mem_filter.mp hu).1 hnu
        · intro u hu hnu
          rw [hk] at hnu
          have huid : u = uid := by
            by_contra hc
            exact hnu (List.mem_filter.mpr ⟨hu, by simpa using hc⟩)
          subst huid
          exact ⟨rfl, s, h, (logout_true_iff env s false).mp hb⟩
        · intro _ hn
          rw [show (GEvent.logout uid).uid = uid from rfl] at hn
          rw [hn] at h
          cases h
      · have hk : (GeconsultasBot.dispatch env r (GEvent.logout uid)).1.user_map.map Prod.fst =
            r.user_map.map Prod.fst := by
          simp only [GeconsultasBot.dispatch, h]
          rw [if_neg hb, keys_setEntry]
        refine ⟨?_, ?_, ?_, ?_⟩
        · rw [hk]; exact hnd
        · intro u hu hnu
          rw [hk] at hu
          exact absurd hu hnu
        · intro u hu hnu
          rw [hk] at hnu
          exact absurd hu hnu
        · intro _ hn
          rw [show (GEvent.logout uid).uid = uid from rfl] at hn
          rw [hn] at h
          cases h
  | help uid =>
    have hg := generic uid (fun s => s.show_help) rfl
    exact ⟨hg.1, hg.2.1, hg.2.2, fun _ hn => call_instance_unknown r uid _ hn⟩
  | registrar uid =>
    have hg := generic uid (fun s => s.register) rfl
    exact ⟨hg.1, hg.2.1, hg.2.2, fun _ hn => call_instance_unknown r uid _ hn⟩
  | restartCmd uid =>
    have hg := generic uid (fun s => GeconsultaInstanceBot.restart env s false) rfl
    exact ⟨hg.1, hg.2.1, hg.2.2, fun _ hn => call_instance_unknown r uid _ hn⟩
  | authCmd uid =>
    have hg := generic uid (fun s => s.auth) rfl
    exact ⟨hg.1, hg.2.1, hg.2.2, fun _ hn => call_instance_unknown r uid _ hn⟩
  | message uid text =>
    have hg := generic uid (fun s => GeconsultaInstanceBot.handle_message env s text) rfl
    exact ⟨hg.1, hg.2.1, hg.2.2, fun _ hn => call_instance_unknown r uid _ hn⟩
  | callback uid message_id data =>
    have hg := generic uid (fun s =>
      let sr := GeconsultaInstanceBot.handle_inline_query env s message_id data
      (sr.session, sr.effects)) rfl
    exact ⟨hg.1, hg.2.1, hg.2.2, fun _ hn => call_instance_unknown r uid _ hn⟩


theorem apply_selector_map (s : GeconsultaInstanceBot) (ref : SelectorRef)
    (data : Option String) : (s.apply_selector ref data).1.selector_map = s.selector_map := by
  cases ref <;> rfl

theorem handle_course_name_map (env : Env) (s : GeconsultaInstanceBot) (hc : Bool)
    (cb : Option String) (sel : Option SelectorRef) :
    (GeconsultaInstanceBot.handle_course_name env s hc cb sel).1.selector_map =
      s.selector_map := by
  unfold GeconsultaInstanceBot.handle_course_name
  cases sel with
  | none => cases hc <;> rfl
  | some ref =>
    cases hc
    · rfl
    · cases hr : (s.apply_selector ref cb).2 <;> simp [hr, apply_selector_map]

theorem handle_assist_name_map (env : Env) (s : GeconsultaInstanceBot) (hc : Bool)
    (cb : Option String) (sel : Option SelectorRef) :
    (GeconsultaInstanceBot.handle_assist_name env s hc cb sel).1.selector_map =
      s.selector_map := by
  unfold GeconsultaInstanceBot.handle_assist_name
  cases sel with
  | none => cases hc <;> rfl
  | some ref =>
    cases hc
    · rfl
    · cases hr : (s.apply_selector ref cb).2 <;> simp [hr, apply_selector_map]

theorem handle_aux_name_map (s : GeconsultaInstanceBot) (hc : Bool)
    (cb : Option String) (sel : Option SelectorRef) :
    (s.handle_aux_name hc cb sel).1.selector_map = s.selector_map := by
  unfold GeconsultaInstanceBot.handle_aux_name
  cases sel with
  | none => cases hc <;> rfl
  | some ref =>
    cases hc
    · rfl
    · cases hr : (s.apply_selector ref cb).2 <;> simp [hr, apply_selector_map]

theorem handle_received_date_map (env : Env) (s : GeconsultaInstanceBot) (hc : Bool)
    (cb : Option String) (sel : Option SelectorRef) :
    (GeconsultaInstanceBot.handle_received_date env s hc cb sel).1.selector_map =
      s.selector_map := by
  unfold GeconsultaInstanceBot.handle_received_date
  cases sel with
  | none => cases hc <;> rfl
  | some ref =>
    cases hc
    · rfl
    · cases hr : (s.apply_selector ref cb).2 <;> simp [hr, apply_selector_map]

theorem handle_start_date_map (env : Env) (s : GeconsultaInstanceBot) (hc : Bool)
    (cb : Option String) (sel : Option SelectorRef) :
    (GeconsultaInstanceBot.handle_start_date env s hc cb sel).1.selector_map =
      s.selector_map := by
  unfold GeconsultaInstanceBot.handle_start_date
  cases sel with
  | none => cases hc <;> rfl
  | some ref =>
    cases hc
    · rfl
    · cases hr : (s.apply_selector ref cb).2 <;> simp [hr, apply_selector_map]

theorem restart_map (env : Env) (s : GeconsultaInstanceBot) (noupdate : Bool) :
    (GeconsultaInstanceBot.restart env s noupdate).1.selector_map = s.selector_map
    ∨ (GeconsultaInstanceBot.restart env s noupdate).1.selector_map = [] := by
  unfold GeconsultaInstanceBot.restart GeconsultaInstanceBot.restart_inline_selectors
  split_ifs <;> simp

theorem handle_end_date_map (env : Env) (s : GeconsultaInstanceBot) (hc : Bool)
    (cb : Option String) (sel : Option SelectorRef) :
    (GeconsultaInstanceBot.handle_end_date env s hc cb sel).1.selector_map = s.selector_map
    ∨ (GeconsultaInstanceBot.handle_end_date env s hc cb sel).1.selector_map = [] := by
  unfold GeconsultaInstanceBot.handle_end_date
  cases sel with
  | none => cases hc <;> exact Or.inl rfl
  | some ref =>
    cases hc
    · exact Or.inl rfl
    · cases hr : (s.apply_selector ref cb).2 with
      | none => exact Or.inl (by simp [hr, apply_selector_map])
      | some dd =>
        simp only [hr]
        rcases restart_map env { (s.apply_selector ref cb).1 with
            consulta := { (s.apply_selector ref cb).1.consulta with end_date := dd },
            input_state := .INPUT_STATE_END } true with hcase | hcase
        · rw [apply_selector_map] at hcase
          exact Or.inl (by simpa using hcase)
        · exact Or.inr (by simpa using hcase)

theorem logout_map (env : Env) (s : GeconsultaInstanceBot) (noupdate : Bool) :
    (GeconsultaInstanceBot.logout env s noupdate).1.selector_map = s.selector_map
    ∨ (GeconsultaInstanceBot.logout env s noupdate).1.selector_map = [] := by
  by_cases h : s.auth_state = .AUTH_IS_AUTHENTICATED
  · unfold GeconsultaInstanceBot.logout
    rw [if_pos h]
    rcases restart_map env s true with hc | hc
    · exact Or.inl (by simpa using hc)
    · exact Or.inr (by simpa using hc)
  · unfold GeconsultaInstanceBot.logout
    rw [if_neg h]
    exact Or.inl rfl

theorem start_map (env : Env) (s : GeconsultaInstanceBot) :
    (GeconsultaInstanceBot.start env s).1.selector_map = s.selector_map
    ∨ (GeconsultaInstanceBot.start env s).1.selector_map = [] := by
  unfold GeconsultaInstanceBot.start GeconsultaInstanceBot.show_help
  rcases logout_map env (GeconsultaInstanceBot.restart env s true).1 true with h2 | h2 <;>
    rcases restart_map env s true with h1 | h1 <;> simp [h2, h1]

theorem register_map (s : GeconsultaInstanceBot) :
    s.register.1.selector_map = s.selector_map := by
  unfold GeconsultaInstanceBot.register
  split_ifs <;> rfl

theorem auth_map (s : GeconsultaInstanceBot) :
    s.auth.1.selector_map = s.selector_map := by
  unfold GeconsultaInstanceBot.auth
  split_ifs <;> rfl

theorem handle_message_map (env : Env) (s : GeconsultaInstanceBot) (t : Option String) :
    (GeconsultaInstanceBot.handle_message env s t).1.selector_map = s.selector_map := by
  unfold GeconsultaInstanceBot.handle_message
  split_ifs with h1 h2
  · cases hI : s.input_state <;> first | rfl | (cases t <;> rfl)
  · cases t with
    | none => rfl
    | some t0 =>
      by_cases hh : env.hash_string t0 = s.auth_hash <;>
        simp [GeconsultaInstanceBot.handle_authenticating, hh]
  · rfl

theorem handle_student_name_map (env : Env) (s : GeconsultaInstanceBot) (t : Option String) :
    (GeconsultaInstanceBot.handle_student_name env s t).1.selector_map = s.selector_map := by
  unfold GeconsultaInstanceBot.handle_student_name
  cases t <;> rfl

theorem inline_state_dispatch_map (env : Env) (s1 : GeconsultaInstanceBot) (d : String)
    (sel : Option SelectorRef) :
    (GeconsultaInstanceBot.inline_state_dispatch env s1 d sel).session.selector_map =
      s1.selector_map
    ∨ (GeconsultaInstanceBot.inline_state_dispatch env s1 d sel).session.selector_map = [] := by
  unfold GeconsultaInstanceBot.inline_state_dispatch
  cases hI : s1.input_state <;>
    simp only [hI] <;>
    first
      | exact Or.inl trivial
      | exact Or.inl rfl
      | exact Or.inl (handle_course_name_map env s1 true (some d) sel)
      | exact Or.inl (handle_assist_name_map env s1 true (some d) sel)
      | exact Or.inl (handle_aux_name_map s1 true (some d) sel)
      | exact Or.inl (handle_received_date_map env s1 true (some d) sel)
      | exact Or.inl (handle_start_date_map env s1 true (some d) sel)
      | exact handle_end_date_map env s1 true (some d) sel


theorem handle_inline_query_map (env : Env) (s : GeconsultaInstanceBot)
    (message_id : Nat) (data : Option String) :
    (GeconsultaInstanceBot.handle_inline_query env s message_id data).session.selector_map = []
    ∨ (GeconsultaInstanceBot.handle_inline_query env s message_id data).session.selector_map =
        (if alookup s.selector_map message_id = none
         then s.selector_map ++ [(message_id, s.current_selector)] else s.selector_map) := by
  by_cases hm : alookup s.selector_map message_id = none
  · unfold GeconsultaInstanceBot.handle_inline_query
    rw [if_pos hm, if_pos hm]
    cases data with
    | none => exact Or.inr rfl
    | some d =>
      rcases inline_state_dispatch_map env
        { s with selector_map := s.selector_map ++ [(message_id, s.current_selector)] } d
        ((alookup (s.selector_map ++ [(message_id, s.current_selector)]) message_id).getD none)
        with hc | hc
      · exact Or.inr hc
      · exact Or.inl hc
  · unfold GeconsultaInstanceBot.handle_inline_query
    rw [if_neg hm, if_neg hm]
    cases data with
    | none => exact Or.inr rfl
    | some d =>
      rcases inline_state_dispatch_map env s d
        ((alookup s.selector_map message_id).getD none) with hc | hc
      · exact Or.inr hc
      · exact Or.inl hc

theorem handle_event_map (env : Env) (e : IEvent) (s : GeconsultaInstanceBot) :
    (GeconsultaInstanceBot.handle_event env e s).session.selector_map = s.selector_map
    ∨ (GeconsultaInstanceBot.handle_event env e s).session.selector_map = []
    ∨ (∃ k d, e = IEvent.cb k d ∧ alookup s.selector_map k = none ∧
        (GeconsultaInstanceBot.handle_event env e s).session.selector_map =
          s.selector_map ++ [(k, s.current_selector)]) := by
  cases e with
  | startCmd =>
    rcases start_map env s with hc | hc
    · exact Or.inl hc
    · exact Or.inr (Or.inl hc)
  | helpCmd => exact Or.inl rfl
  | registerCmd => exact Or.inl (register_map s)
  | restartCmd =>
    rcases restart_map env s false with hc | hc
    · exact Or.inl hc
    · exact Or.inr (Or.inl hc)
  | authCmd => exact Or.inl (auth_map s)
  | logoutCmd =>
    rcases logout_map env s false with hc | hc
    · exact Or.inl hc
    · exact Or.inr (Or.inl hc)
  | msg text => exact Or.inl (handle_message_map env s text)
  | cb message_id data =>
    rcases handle_inline_query_map env s message_id data with hc | hc
    · exact Or.inr (Or.inl hc)
    · by_cases hm : alookup s.selector_map message_id = none
      · rw [if_pos hm] at hc
        exact Or.inr (Or.inr ⟨message_id, data, rfl, hm, hc⟩)
      · rw [if_neg hm] at hc
        exact Or.inl hc

/-- Claim C7 (amended): a pending-selection binding is added lazily on the
first callback for a message, is never updated to a different selector, and
disappears only when the whole map is cleared by a reset (restart, logout,
start, or completion of the entry flow), never individually. -/
theorem pending_map_evolution (env : Env) (e : IEvent) (s : GeconsultaInstanceBot) :
    ((∀ k v, alookup s.selector_map k = some v →
        alookup (GeconsultaInstanceBot.handle_event env e s).session.selector_map k = some v
        ∨ (GeconsultaInstanceBot.handle_event env e s).session.selector_map = [])
    ∧ (∀ k d, e = IEvent.cb k d → alookup s.selector_map k = none →
        (GeconsultaInstanceBot.handle_event env e s).session.selector_map = []
        ∨ alookup (GeconsultaInstanceBot.handle_event env e s).session.selector_map k =
            some s.current_selector)) := by
  constructor
  · intro k v hk
    rcases handle_event_map env e s with hc | hc | ⟨k2, d2, he, hm2, hc⟩
    · rw [hc]
      exact Or.inl hk
    · exact Or.inr hc
    · rw [hc]
      exact Or.inl (alookup_append_some hk _)
  · intro k d he hk
    subst he
    rcases handle_inline_query_map env s k d with hc | hc
    · exact Or.inl (by simpa [GeconsultaInstanceBot.handle_event] using hc)
    · rw [if_pos hk] at hc
      refine Or.inr ?_
      rw [show (GeconsultaInstanceBot.handle_event env (IEvent.cb k d) s).session.selector_map =
        s.selector_map ++ [(k, s.current_selector)] from hc]
      rw [alookup_append_none hk]
      simp [alookup]

/-- Claim C7, counterexample to the claim as stated: a restart command
during the session's life clears the pending-selection map, removing the
existing binding for message 5. -/
theorem pending_map_entry_removed_by_restart :
    alookup boundMapSession.selector_map 5 = some (some SelectorRef.dateSel)
    ∧ alookup (GeconsultaInstanceBot.handle_event env0 IEvent.restartCmd
        boundMapSession).session.selector_map 5 = none := ⟨rfl, rfl⟩

/-- Witness for C5 at the month-12 wheel. -/
theorem update_month_wrap_and_clamp_witness :
    month12Sample.month_number = 12
    ∧ (month12Sample.update_month true).month_number = 1
    ∧ (month12Sample.update_month true).day ≤ month12Sample.day := by
  have h := update_month_wrap_and_clamp month12Sample true
  exact ⟨rfl, h.1 rfl rfl, h.2.2.2.2⟩

/-- Witness for C4: a valid right navigation on the sample selector. -/
theorem paginated_callback_cases_witness :
    pagSel.data = some ["a", "b", "c", "d", "e"]
    ∧ pagSel.handle_callback_query (some "$right") =
        ({ pagSel with page_index := pagSel.page_index + 1,
                       selector_state := .SELECTION_ACTIVE }, none) := by
  have h := paginated_callback_cases pagSel "$right" ["a", "b", "c", "d", "e"] rfl
  exact ⟨rfl, h.2.2.2.2.1 rfl rfl (by decide)⟩

/-- Witness for C9: an unknown reserved-marker payload is returned verbatim. -/
theorem non_reserved_token_terminal_witness :
    pagSel.handle_callback_query (some "$foo") =
      ({ pagSel with selector_state := .SELECTION_COMPLETE }, some "$foo") :=
  non_reserved_token_terminal pagSel "$foo" rfl (by decide) (by decide) (by decide)

/-- Witness for C6 (amended) on the sample wheel. -/
theorem confirm_timestamp_layout_witness :
    (confirmSample.handle_callback_query (some "$date_confirm")).2 =
      some (DATE_STR_FORMAT_apply confirmSample.year confirmSample.month_number
        confirmSample.day confirmSample.time_hour confirmSample.time_minute)
    ∧ (confirmSample.handle_callback_query (some "$date_confirm")).1.selector_state =
        .SELECTION_COMPLETE :=
  confirm_timestamp_layout confirmSample rfl

/-- Witness for C2 on a concrete authenticating session. -/
theorem authenticating_text_transition_witness :
    (((GeconsultaInstanceBot.handle_message env0 authSession (some "pw")).1.auth_state =
        .AUTH_IS_AUTHENTICATED) ↔ env0.hash_string "pw" = authSession.auth_hash)
    ∧ ((GeconsultaInstanceBot.handle_message env0 authSession (some "pw")).1.auth_state =
        .AUTH_IS_AUTHENTICATED) := by
  have h := authenticating_text_transition env0 authSession "pw" rfl
  exact ⟨h.1, h.1.mpr rfl⟩

/-- Witness for C10 on a concrete authenticated session. -/
theorem register_frame_witness :
    studentNameSession.register.1.selector_map = studentNameSession.selector_map
    ∧ studentNameSession.register.1.date_selector = studentNameSession.date_selector
    ∧ studentNameSession.register.1.input_state = .INPUT_STUDENT_NAME := by
  have h := register_frame env0 studentNameSession rfl
  exact ⟨h.2.2.2.1, h.2.2.1, h.2.2.2.2.2.1⟩

/-- Witness for C1 on a concrete end-date session. -/
theorem end_date_terminal_flow_witness :
    (GeconsultaInstanceBot.handle_inline_query env0 endDateSession 9
      (some "$date_confirm")).effects.replies.length = 3
    ∧ (GeconsultaInstanceBot.handle_inline_query env0 endDateSession 9
        (some "$date_confirm")).session.input_state = .INPUT_STATE_IDLE
    ∧ (GeconsultaInstanceBot.handle_inline_query env0 endDateSession 9
        (some "$date_confirm")).effects.enqueued =
        [{ endDateSession.consulta with
             end_date := (DATE_STR_FORMAT_apply endDateSession.date_selector.year
               endDateSession.date_selector.month_number endDateSession.date_selector.day
               endDateSession.date_selector.time_hour
               endDateSession.date_selector.time_minute) }] := by
  have h := end_date_terminal_flow env0 endDateSession 9 rfl rfl rfl rfl
  exact ⟨h.2.2.1, h.2.2.2.1, h.2.1⟩

/-- Witness for C3 on a concrete one-user router. -/
theorem router_user_table_invariant_witness :
    ((GeconsultasBot.dispatch env0 router0 (GEvent.registrar 1)).1.user_map.map
      Prod.fst).Nodup := by
  have h := router_user_table_invariant env0 router0 (GEvent.registrar 1) (by decide)
  exact h.1

/-- Witness for C7 (amended) on a concrete bound session. -/
theorem pending_map_evolution_witness :
    alookup (GeconsultaInstanceBot.handle_event env0 IEvent.registerCmd
      boundMapSession).session.selector_map 5 = some (some SelectorRef.dateSel)
    ∨ (GeconsultaInstanceBot.handle_event env0 IEvent.registerCmd
        boundMapSession).session.selector_map = [] :=
  (pending_map_evolution env0 IEvent.registerCmd boundMapSession).1 5
    (some SelectorRef.dateSel) rfl

end Gecobot
